import Mathlib

/-!
Shallow embedding of the VWA-XRPL Solana program
(src/programs/vwa-solana/src/lib.rs), an asset-registry / order-book /
trade-execution core, together with proofs of its specified properties.

Account addresses (Solana `Pubkey`s) are abstracted as natural numbers.
Machine integers (`u64`, `u8`) are embedded as `Nat` (no arithmetic is
performed on them by the program, so overflow never arises); `i64`
timestamps are embedded as `Int`.  Each instruction handler becomes a
pure function from its accounts-context to an outcome record carrying an
optional error, the post-states of every account it can write, and the
list of settlement-transfer calls it issued.  A failed handler aborts the
whole host-ledger transaction, so on error every post-state equals the
corresponding input state.
-/

namespace VWA

/-- An account address on the host ledger, abstracted as a natural number. -/
abbrev Pubkey := Nat

/-- The closed set of asset categories (`enum AssetType` in the source). -/
inductive AssetType
  | Gold
  | Silver
  | Platinum
  | Palladium
  | Diamond
  | Ruby
  | Emerald
  | Sapphire
deriving DecidableEq

/-- Buy/sell marker for orders (`enum OrderType` in the source). -/
inductive OrderType
  | Buy
  | Sell
deriving DecidableEq

/-- The program's typed errors (`enum ErrorCode` in the source). -/
inductive ErrorCode
  | Unauthorized
  | OrderInactive
  | InvalidQuantity
deriving DecidableEq

/-- One physical-asset record (`struct Asset` in the source). -/
structure Asset where
  owner : Pubkey
  asset_type : AssetType
  weight : Nat
  purity : Nat
  certification : String
  current_price : Nat
  created_at : Int
  last_price_update : Int
  is_active : Bool
deriving DecidableEq

/-- One standing trade order (`struct TradeOrder` in the source).
`asset` is the address of the Asset account the order targets. -/
structure TradeOrder where
  asset : Pubkey
  owner : Pubkey
  order_type : OrderType
  quantity : Nat
  price_per_unit : Nat
  created_at : Int
  is_active : Bool
deriving DecidableEq

/-- A settlement-token account; only its balance matters to this core. -/
structure TokenAccount where
  amount : Nat
deriving DecidableEq

/-- Failure of the external settlement-transfer collaborator. -/
inductive TransferError
  | InsufficientFunds
deriving DecidableEq

/-- Every way `execute_trade` can fail: one of the program's own typed
errors, or a propagated failure of the settlement-transfer collaborator. -/
inductive TradeError
  | program (e : ErrorCode)
  | transfer (e : TransferError)
deriving DecidableEq

/-- One call to the external settlement-transfer collaborator, as issued by
`execute_trade`: the token amount moved and the credential presented as
transfer authority. -/
structure TransferCall where
  amount : Nat
  authority : Pubkey
deriving DecidableEq

/-- Modelled from the spec: the settlement-asset transfer provider
(`transfer(source, destination, amount, authority) -> Ok | InsufficientFunds
| Unauthorized`), which the source invokes through `token::transfer` but does
not reimplement.  It moves `amount` units from `source` to `destination`,
failing when the source balance is insufficient; signature authorization is
delegated to the external identity collaborator and is not modelled. -/
def token_transfer (source dest : TokenAccount) (amount : Nat) :
    Except TransferError (TokenAccount × TokenAccount) :=
  if amount ≤ source.amount then
    .ok ({ amount := source.amount - amount }, { amount := dest.amount + amount })
  else
    .error .InsufficientFunds

/-- The handler `initialize_asset`: field-by-field construction of a fresh
Asset record.  A freshly allocated account is zero-initialized, and the
handler never writes `last_price_update`, so that field stays `0`. -/
def initialize_asset (owner_key : Pubkey) (asset_type : AssetType)
    (weight : Nat) (purity : Nat) (certification : String)
    (initial_price : Nat) (now : Int) : Asset :=
  { owner := owner_key
    asset_type := asset_type
    weight := weight
    purity := purity
    certification := certification
    current_price := initial_price
    created_at := now
    last_price_update := 0
    is_active := true }

/-- Outcome of `update_price`: optional error plus the post-state of the
one Asset account the handler may write (equal to the input on failure,
since a failed handler aborts the host transaction). -/
structure PriceOutcome where
  err : Option ErrorCode
  asset : Asset
deriving DecidableEq

/-- The handler `update_price`: requires the signer to be the asset's
owner (`ErrorCode::Unauthorized` otherwise), then overwrites
`current_price` and stamps `last_price_update`. -/
def update_price (asset : Asset) (owner_key : Pubkey) (new_price : Nat)
    (now : Int) : PriceOutcome :=
  if asset.owner = owner_key then
    { err := none
      asset := { asset with current_price := new_price, last_price_update := now } }
  else
    { err := some .Unauthorized, asset := asset }

/-- The handler `create_trade_order`: field-by-field construction of a
fresh TradeOrder referencing the given asset account. -/
def create_trade_order (asset_key : Pubkey) (owner_key : Pubkey)
    (order_type : OrderType) (quantity : Nat) (price_per_unit : Nat)
    (now : Int) : TradeOrder :=
  { asset := asset_key
    owner := owner_key
    order_type := order_type
    quantity := quantity
    price_per_unit := price_per_unit
    created_at := now
    is_active := true }

/-- The accounts context of `execute_trade` (`struct ExecuteTrade` in the
source): the order and asset records, the two settlement-token accounts,
and the two presented signers.  `asset_key` is the address of the `asset`
account (every passed account has an address; the handler never reads it,
and the source declares no constraint tying it to `order.asset`). -/
structure ExecuteTrade where
  order : TradeOrder
  asset : Asset
  from_token_account : TokenAccount
  to_token_account : TokenAccount
  owner : Pubkey
  buyer : Pubkey
  asset_key : Pubkey
deriving DecidableEq

/-- Outcome of `execute_trade`: optional error, post-states of the four
writable accounts (each equal to its input on failure, since a failed
handler aborts the host transaction), and the settlement-transfer calls
issued during the attempt. -/
structure TradeOutcome where
  err : Option TradeError
  order : TradeOrder
  asset : Asset
  from_token_account : TokenAccount
  to_token_account : TokenAccount
  transfers : List TransferCall
deriving DecidableEq

/-- Outcome of an `execute_trade` run that stopped before reaching the
settlement transfer: every account keeps its input state and no transfer
call was issued. -/
def aborted (ctx : ExecuteTrade) (e : TradeError) : TradeOutcome :=
  { err := some e
    order := ctx.order
    asset := ctx.asset
    from_token_account := ctx.from_token_account
    to_token_account := ctx.to_token_account
    transfers := [] }

/-- The handler `execute_trade`: requires the order active
(`ErrorCode::OrderInactive`) then its quantity positive
(`ErrorCode::InvalidQuantity`); invokes the settlement transfer of
`order.quantity` tokens authorized by the `owner` signer; on its success
zeroes and deactivates the order and hands the asset to the `buyer`
signer. -/
def execute_trade (ctx : ExecuteTrade) : TradeOutcome :=
  if ctx.order.is_active = true then
    if 0 < ctx.order.quantity then
      match token_transfer ctx.from_token_account ctx.to_token_account
          ctx.order.quantity with
      | .error e =>
          { err := some (.transfer e)
            order := ctx.order
            asset := ctx.asset
            from_token_account := ctx.from_token_account
            to_token_account := ctx.to_token_account
            transfers := [{ amount := ctx.order.quantity, authority := ctx.owner }] }
      | .ok (source, dest) =>
          { err := none
            order := { ctx.order with quantity := 0, is_active := false }
            asset := { ctx.asset with owner := ctx.buyer }
            from_token_account := source
            to_token_account := dest
            transfers := [{ amount := ctx.order.quantity, authority := ctx.owner }] }
    else
      aborted ctx (.program .InvalidQuantity)
  else
    aborted ctx (.program .OrderInactive)

/-- The deterministic identity of an Asset account: the source derives the
address from the seeds `[b"asset", owner, asset_type]`, so it is determined
exactly by the `(owner, assetType)` pair. -/
abbrev AssetAddr := Pubkey × AssetType

/-- Failure of asset creation at the record store. -/
inductive CreateAssetError
  | DuplicateAsset
deriving DecidableEq

/-- Modelled from the spec: the record store's deterministic-address
creation used by `initialize_asset`'s `init` account constraint, which is
provided by the host ledger and not reimplemented in the source.  Creation
"fails with `DuplicateAsset` if an asset already exists at the
deterministic identity derived from `(owner, assetType)`"; otherwise the
freshly constructed record is stored at that identity. -/
def create_asset (store : List (AssetAddr × Asset)) (owner_key : Pubkey)
    (asset_type : AssetType) (weight : Nat) (purity : Nat)
    (certification : String) (initial_price : Nat) (now : Int) :
    Except CreateAssetError (List (AssetAddr × Asset)) :=
  match store.lookup (owner_key, asset_type) with
  | some _ => .error .DuplicateAsset
  | none =>
      .ok (((owner_key, asset_type),
        initialize_asset owner_key asset_type weight purity certification
          initial_price now) :: store)

/-- Overwrite the record stored at key `k` (insert if absent): the record
store's atomic write-back of one account. -/
def set_entry {κ α : Type} [BEq κ] (k : κ) (v : α) :
    List (κ × α) → List (κ × α)
  | [] => [(k, v)]
  | (k2, v2) :: rest =>
      if k == k2 then (k, v) :: rest else (k2, v2) :: set_entry k v rest

/-- One invocation of `execute_trade` against the record store: the host
ledger reads the order account at `order_key` and the asset account at
`asset_key`, runs the handler, and writes back exactly those two records.
Returns `none` when either account does not exist. -/
def execute_trade_keyed (orders : List (Pubkey × TradeOrder))
    (assets : List (Pubkey × Asset)) (order_key asset_key : Pubkey)
    (fta tta : TokenAccount) (owner_key buyer_key : Pubkey) :
    Option (List (Pubkey × TradeOrder) × List (Pubkey × Asset) ×
      Option TradeError) :=
  match orders.lookup order_key, assets.lookup asset_key with
  | some o, some a =>
      let out := execute_trade
        { order := o, asset := a, from_token_account := fta,
          to_token_account := tta, owner := owner_key, buyer := buyer_key,
          asset_key := asset_key }
      some (set_entry order_key out.order orders,
        set_entry asset_key out.asset assets, out.err)
  | _, _ => none

/-- A sequence of `execute_trade` invocations threaded through one
TradeOrder account: each step runs the handler on the current order state
together with that step's other accounts, records the resulting order
state and error, and passes the order state on. -/
def run_orders (o : TradeOrder) :
    List ExecuteTrade → List (TradeOrder × Option TradeError)
  | [] => []
  | c :: cs =>
      let out := execute_trade { c with order := o }
      (out.order, out.err) :: run_orders out.order cs

/-! ### Sample records

Concrete records mirroring the end-to-end example of the specification:
asset owned by `1` (Gold, 1000 mg, purity 99, certificate "C1", price
5000), a sell order for 10 units at 5000 each, executed with buyer `2`. -/

/-- Sample asset: owner `1`, Gold, weight 1000, purity 99, price 5000. -/
def asset1 : Asset :=
  initialize_asset 1 .Gold 1000 99 "C1" 5000 0

/-- Sample order against the asset account at address `100`: owner `1`,
Sell, quantity 10, unit price 5000. -/
def order1 : TradeOrder :=
  create_trade_order 100 1 .Sell 10 5000 0

/-- Sample execution context: `order1` and `asset1`, a source token
account holding 50 units, signers `1` (order owner) and `2` (buyer), with
the asset account living at address `100`. -/
def ctx1 : ExecuteTrade :=
  { order := order1
    asset := asset1
    from_token_account := { amount := 50 }
    to_token_account := { amount := 0 }
    owner := 1
    buyer := 2
    asset_key := 100 }

/-! ### Characterization lemmas for `execute_trade`

One lemma per control-flow path of the handler: inactive order,
zero-quantity order, settlement-transfer failure, and full success. -/

/-- An inactive order aborts the handler with `OrderInactive`. -/
lemma exec_inactive (ctx : ExecuteTrade) (h : ctx.order.is_active = false) :
    execute_trade ctx = aborted ctx (.program .OrderInactive) := by
  simp [execute_trade, h]

/-- An active zero-quantity order aborts the handler with `InvalidQuantity`. -/
lemma exec_zero (ctx : ExecuteTrade) (ha : ctx.order.is_active = true)
    (hq : ctx.order.quantity = 0) :
    execute_trade ctx = aborted ctx (.program .InvalidQuantity) := by
  simp [execute_trade, ha, hq]

/-- When the settlement source cannot cover the quantity, the transfer
call is issued but fails, and every account keeps its input state. -/
lemma exec_insufficient (ctx : ExecuteTrade) (ha : ctx.order.is_active = true)
    (hq : 0 < ctx.order.quantity)
    (hle : ¬ ctx.order.quantity ≤ ctx.from_token_account.amount) :
    execute_trade ctx =
      { err := some (.transfer .InsufficientFunds)
        order := ctx.order
        asset := ctx.asset
        from_token_account := ctx.from_token_account
        to_token_account := ctx.to_token_account
        transfers := [{ amount := ctx.order.quantity, authority := ctx.owner }] } := by
  simp [execute_trade, token_transfer, ha, hq, hle]

/-- The success path: balances move by the order quantity, the order is
zeroed and deactivated, and the asset goes to the buyer. -/
lemma exec_success (ctx : ExecuteTrade) (ha : ctx.order.is_active = true)
    (hq : 0 < ctx.order.quantity)
    (hle : ctx.order.quantity ≤ ctx.from_token_account.amount) :
    execute_trade ctx =
      { err := none
        order := { ctx.order with quantity := 0, is_active := false }
        asset := { ctx.asset with owner := ctx.buyer }
        from_token_account :=
          { amount := ctx.from_token_account.amount - ctx.order.quantity }
        to_token_account :=
          { amount := ctx.to_token_account.amount + ctx.order.quantity }
        transfers := [{ amount := ctx.order.quantity, authority := ctx.owner }] } := by
  simp [execute_trade, token_transfer, ha, hq, hle]

/-- A run without error passed every check and had sufficient funds. -/
lemma exec_err_none (ctx : ExecuteTrade)
    (h : (execute_trade ctx).err = none) :
    ctx.order.is_active = true ∧ 0 < ctx.order.quantity ∧
      ctx.order.quantity ≤ ctx.from_token_account.amount := by
  cases ha : ctx.order.is_active with
  | false => rw [exec_inactive ctx ha] at h; simp [aborted] at h
  | true =>
    by_cases hq : 0 < ctx.order.quantity
    · by_cases hle : ctx.order.quantity ≤ ctx.from_token_account.amount
      · exact ⟨rfl, hq, hle⟩
      · rw [exec_insufficient ctx ha hq hle] at h; simp at h
    · rw [exec_zero ctx ha (Nat.eq_zero_of_not_pos hq)] at h
      simp [aborted] at h

/-- A successful run leaves the order inactive. -/
lemma exec_succ_post_inactive (ctx : ExecuteTrade)
    (h : (execute_trade ctx).err = none) :
    (execute_trade ctx).order.is_active = false := by
  obtain ⟨ha, hq, hle⟩ := exec_err_none ctx h
  rw [exec_success ctx ha hq hle]

/-- The handler never reactivates an order. -/
lemma exec_post_active (ctx : ExecuteTrade)
    (h : (execute_trade ctx).order.is_active = true) :
    ctx.order.is_active = true := by
  cases ha : ctx.order.is_active with
  | false => rw [exec_inactive ctx ha] at h; simp [aborted, ha] at h
  | true => rfl

/-- The order deactivates (true to false) in one step exactly when that
step succeeded. -/
lemma exec_flip_iff (ctx : ExecuteTrade) :
    ((execute_trade ctx).order.is_active = false ∧
        ctx.order.is_active = true) ↔
      (execute_trade ctx).err = none := by
  constructor
  · rintro ⟨hpost, hpre⟩
    by_cases hq : 0 < ctx.order.quantity
    · by_cases hle : ctx.order.quantity ≤ ctx.from_token_account.amount
      · rw [exec_success ctx hpre hq hle]
      · rw [exec_insufficient ctx hpre hq hle] at hpost
        simp at hpost
        exact absurd hpre (by simp [hpost])
    · rw [exec_zero ctx hpre (Nat.eq_zero_of_not_pos hq)] at hpost
      simp [aborted] at hpost
      exact absurd hpre (by simp [hpost])
  · intro h
    exact ⟨exec_succ_post_inactive ctx h, (exec_err_none ctx h).1⟩

/-- The error outcome depends only on the order's activity flag and
quantity and on the settlement-source balance. -/
lemma exec_err_congr (ctx ctx2 : ExecuteTrade)
    (h1 : ctx2.order.is_active = ctx.order.is_active)
    (h2 : ctx2.order.quantity = ctx.order.quantity)
    (h3 : ctx2.from_token_account = ctx.from_token_account) :
    (execute_trade ctx2).err = (execute_trade ctx).err := by
  cases ha : ctx.order.is_active with
  | false =>
    rw [exec_inactive ctx ha, exec_inactive ctx2 (h1.trans ha)]
    simp [aborted]
  | true =>
    have ha2 : ctx2.order.is_active = true := h1.trans ha
    by_cases hq : 0 < ctx.order.quantity
    · by_cases hle : ctx.order.quantity ≤ ctx.from_token_account.amount
      · rw [exec_success ctx ha hq hle,
          exec_success ctx2 ha2 (h2 ▸ hq) (by rw [h2, h3]; exact hle)]
      · rw [exec_insufficient ctx ha hq hle,
          exec_insufficient ctx2 ha2 (h2 ▸ hq) (by rw [h2, h3]; exact hle)]
    · rw [exec_zero ctx ha (Nat.eq_zero_of_not_pos hq),
        exec_zero ctx2 ha2 (by rw [h2]; exact Nat.eq_zero_of_not_pos hq)]
      simp [aborted]

/-- The issued transfer calls depend only on the order's activity flag and
quantity, the settlement-source balance, and the authority signer. -/
lemma exec_transfers_congr (ctx ctx2 : ExecuteTrade)
    (h1 : ctx2.order.is_active = ctx.order.is_active)
    (h2 : ctx2.order.quantity = ctx.order.quantity)
    (h3 : ctx2.from_token_account = ctx.from_token_account)
    (h4 : ctx2.owner = ctx.owner) :
    (execute_trade ctx2).transfers = (execute_trade ctx).transfers := by
  cases ha : ctx.order.is_active with
  | false =>
    rw [exec_inactive ctx ha, exec_inactive ctx2 (h1.trans ha)]
    simp [aborted]
  | true =>
    have ha2 : ctx2.order.is_active = true := h1.trans ha
    by_cases hq : 0 < ctx.order.quantity
    · by_cases hle : ctx.order.quantity ≤ ctx.from_token_account.amount
      · rw [exec_success ctx ha hq hle,
          exec_success ctx2 ha2 (h2 ▸ hq) (by rw [h2, h3]; exact hle)]
        simp [h2, h4]
      · rw [exec_insufficient ctx ha hq hle,
          exec_insufficient ctx2 ha2 (h2 ▸ hq) (by rw [h2, h3]; exact hle)]
        simp [h2, h4]
    · rw [exec_zero ctx ha (Nat.eq_zero_of_not_pos hq),
        exec_zero ctx2 ha2 (by rw [h2]; exact Nat.eq_zero_of_not_pos hq)]
      simp [aborted]

/-- Once an order is inactive, every later invocation in a run fails, so
the run contains no successful step. -/
lemma run_orders_inactive_count (cs : List ExecuteTrade) (o : TradeOrder)
    (h : o.is_active = false) :
    (run_orders o cs).countP (fun p => p.2.isNone) = 0 := by
  induction cs generalizing o with
  | nil => rfl
  | cons c cs ih =>
    have hctx : ({ c with order := o } : ExecuteTrade).order.is_active = false := h
    simp only [run_orders, exec_inactive _ hctx, aborted, List.countP_cons]
    simpa using ih o h

/-- Any run of `execute_trade` invocations threaded through one order
contains at most one successful step. -/
lemma run_orders_count_le_one (cs : List ExecuteTrade) (o : TradeOrder) :
    (run_orders o cs).countP (fun p => p.2.isNone) ≤ 1 := by
  induction cs generalizing o with
  | nil => simp [run_orders]
  | cons c cs ih =>
    simp only [run_orders, List.countP_cons]
    cases he : (execute_trade { c with order := o }).err with
    | none =>
      have hrest : (run_orders (execute_trade { c with order := o }).order cs).countP
          (fun p => p.2.isNone) = 0 :=
        run_orders_inactive_count cs _ (exec_succ_post_inactive _ he)
      simp [he, hrest]
    | some e =>
      simpa [he] using ih (execute_trade { c with order := o }).order

/-- Writing one record into the store leaves every other key's record
untouched. -/
lemma lookup_set_entry_ne {α : Type} (l : List (Pubkey × α))
    (k k2 : Pubkey) (v : α) (h : k ≠ k2) :
    (set_entry k2 v l).lookup k = l.lookup k := by
  have hb : (k == k2) = false := beq_eq_false_iff_ne.mpr h
  induction l with
  | nil => simp [set_entry, List.lookup, hb]
  | cons kv rest ih =>
    obtain ⟨k3, v3⟩ := kv
    by_cases h23 : k2 = k3
    · subst h23
      simp [set_entry, List.lookup, hb]
    · have hb23 : (k2 == k3) = false := beq_eq_false_iff_ne.mpr h23
      simp [set_entry, List.lookup, hb23, ih]

/-! ### Claim theorems -/

/-- Claim C1: for every active order with positive quantity, a successful
`execute_trade` leaves the order with quantity 0 and inactive, sets the
asset's owner to the `buyer` passed to the call (no hypothesis relates the
buyer to any field of the order), and issues exactly one settlement
transfer whose amount is the order's pre-execution quantity. -/
theorem execute_trade_success_effects (ctx : ExecuteTrade)
    (hact : ctx.order.is_active = true) (hq : 0 < ctx.order.quantity)
    (hok : (execute_trade ctx).err = none) :
    (execute_trade ctx).order.quantity = 0 ∧
    (execute_trade ctx).order.is_active = false ∧
    (execute_trade ctx).asset.owner = ctx.buyer ∧
    (execute_trade ctx).transfers =
      [{ amount := ctx.order.quantity, authority := ctx.owner }] := by
  obtain ⟨-, -, hle⟩ := exec_err_none ctx hok
  rw [exec_success ctx hact hq hle]
  exact ⟨rfl, rfl, rfl, rfl⟩

/-- Concrete instance of C1 on the sample trade. -/
theorem execute_trade_success_effects_witness :
    (execute_trade ctx1).order.quantity = 0 ∧
    (execute_trade ctx1).order.is_active = false ∧
    (execute_trade ctx1).asset.owner = ctx1.buyer ∧
    (execute_trade ctx1).transfers =
      [{ amount := ctx1.order.quantity, authority := ctx1.owner }] :=
  execute_trade_success_effects ctx1 (by decide) (by decide) (by decide)

/-- Claim C2: `execute_trade` on an inactive order fails with
`OrderInactive` and changes no account; in particular, after a successful
execution, re-running the handler on the resulting order state fails with
`OrderInactive`, so success happens at most once per order. -/
theorem execute_trade_inactive_no_change (ctx : ExecuteTrade) :
    (ctx.order.is_active = false →
      (execute_trade ctx).err = some (.program .OrderInactive) ∧
      (execute_trade ctx).order = ctx.order ∧
      (execute_trade ctx).asset = ctx.asset ∧
      (execute_trade ctx).from_token_account = ctx.from_token_account ∧
      (execute_trade ctx).to_token_account = ctx.to_token_account ∧
      (execute_trade ctx).transfers = []) ∧
    (∀ ctx2 : ExecuteTrade, (execute_trade ctx).err = none →
      ctx2.order = (execute_trade ctx).order →
      (execute_trade ctx2).err = some (.program .OrderInactive)) := by
  constructor
  · intro h
    rw [exec_inactive ctx h]
    exact ⟨rfl, rfl, rfl, rfl, rfl, rfl⟩
  · intro ctx2 hok horder
    have h2 : ctx2.order.is_active = false := by
      rw [horder]; exact exec_succ_post_inactive ctx hok
    rw [exec_inactive ctx2 h2]
    rfl

/-- Concrete instance of C2: an inactivated sample order is rejected with
no state change, and the sample trade cannot be executed twice. -/
theorem execute_trade_inactive_no_change_witness :
    (execute_trade { ctx1 with order := { order1 with is_active := false } }).err
        = some (.program .OrderInactive) ∧
    (execute_trade { ctx1 with order := { order1 with is_active := false } }).order
        = { order1 with is_active := false } ∧
    (execute_trade { ctx1 with order := (execute_trade ctx1).order }).err
        = some (.program .OrderInactive) := by
  refine ⟨?_, ?_, ?_⟩
  · exact ((execute_trade_inactive_no_change
      { ctx1 with order := { order1 with is_active := false } }).1 (by decide)).1
  · exact ((execute_trade_inactive_no_change
      { ctx1 with order := { order1 with is_active := false } }).1 (by decide)).2.1
  · exact (execute_trade_inactive_no_change ctx1).2
      { ctx1 with order := (execute_trade ctx1).order } (by decide) rfl

/-- Claim C3: an active zero-quantity order fails with `InvalidQuantity`
and no settlement transfer is attempted; the activity check runs first, so
an order that is both inactive and zero-quantity fails with
`OrderInactive`; and any failing run leaves every account unchanged. -/
theorem execute_trade_zero_quantity_check_order (ctx : ExecuteTrade) :
    (ctx.order.is_active = true → ctx.order.quantity = 0 →
      (execute_trade ctx).err = some (.program .InvalidQuantity) ∧
      (execute_trade ctx).transfers = []) ∧
    (ctx.order.is_active = false → ctx.order.quantity = 0 →
      (execute_trade ctx).err = some (.program .OrderInactive)) ∧
    (∀ e : TradeError, (execute_trade ctx).err = some e →
      (execute_trade ctx).order = ctx.order ∧
      (execute_trade ctx).asset = ctx.asset ∧
      (execute_trade ctx).from_token_account = ctx.from_token_account ∧
      (execute_trade ctx).to_token_account = ctx.to_token_account) := by
  refine ⟨?_, ?_, ?_⟩
  · intro ha hq
    rw [exec_zero ctx ha hq]
    exact ⟨rfl, rfl⟩
  · intro ha _
    rw [exec_inactive ctx ha]
    rfl
  · intro e he
    cases ha : ctx.order.is_active with
    | false =>
      rw [exec_inactive ctx ha]
      exact ⟨rfl, rfl, rfl, rfl⟩
    | true =>
      by_cases hq : 0 < ctx.order.quantity
      · by_cases hle : ctx.order.quantity ≤ ctx.from_token_account.amount
        · rw [exec_success ctx ha hq hle] at he
          simp at he
        · rw [exec_insufficient ctx ha hq hle]
          exact ⟨rfl, rfl, rfl, rfl⟩
      · rw [exec_zero ctx ha (Nat.eq_zero_of_not_pos hq)]
        exact ⟨rfl, rfl, rfl, rfl⟩

/-- Concrete instance of C3: the zero-quantity sample order fails with
`InvalidQuantity` and no transfer call, an inactive zero-quantity order
fails with `OrderInactive`, and the failing run changes nothing. -/
theorem execute_trade_zero_quantity_check_order_witness :
    (execute_trade { ctx1 with order := { order1 with quantity := 0 } }).err
        = some (.program .InvalidQuantity) ∧
    (execute_trade { ctx1 with order := { order1 with quantity := 0 } }).transfers
        = [] ∧
    (execute_trade
        { ctx1 with order := { order1 with is_active := false, quantity := 0 } }).err
      = some (.program .OrderInactive) ∧
    (execute_trade { ctx1 with order := { order1 with quantity := 0 } }).order
        = { order1 with quantity := 0 } := by
  refine ⟨?_, ?_, ?_, ?_⟩
  · exact ((execute_trade_zero_quantity_check_order
      { ctx1 with order := { order1 with quantity := 0 } }).1 (by decide) (by decide)).1
  · exact ((execute_trade_zero_quantity_check_order
      { ctx1 with order := { order1 with quantity := 0 } }).1 (by decide) (by decide)).2
  · exact (execute_trade_zero_quantity_check_order
      { ctx1 with order := { order1 with is_active := false, quantity := 0 } }).2.1
      (by decide) (by decide)
  · exact ((execute_trade_zero_quantity_check_order
      { ctx1 with order := { order1 with quantity := 0 } }).2.2
      (.program .InvalidQuantity) (by decide)).1

/-- Claim C4: `create_asset` fails with `DuplicateAsset` whenever a record
already exists at the deterministic identity `(owner, assetType)`; in
particular, after one successful creation, the same owner creating a
second asset of the same type is rejected with `DuplicateAsset`. -/
theorem create_asset_duplicate :
    (∀ (store : List (AssetAddr × Asset)) (owner_key : Pubkey)
        (asset_type : AssetType) (weight purity : Nat) (cert : String)
        (price : Nat) (now : Int) (a : Asset),
      store.lookup (owner_key, asset_type) = some a →
      create_asset store owner_key asset_type weight purity cert price now
        = .error .DuplicateAsset) ∧
    (∀ (store store2 : List (AssetAddr × Asset)) (owner_key : Pubkey)
        (asset_type : AssetType) (w1 p1 : Nat) (c1 : String) (pr1 : Nat)
        (n1 : Int) (w2 p2 : Nat) (c2 : String) (pr2 : Nat) (n2 : Int),
      create_asset store owner_key asset_type w1 p1 c1 pr1 n1 = .ok store2 →
      create_asset store2 owner_key asset_type w2 p2 c2 pr2 n2
        = .error .DuplicateAsset) := by
  constructor
  · intro store ow aty w p c pr n a h
    simp [create_asset, h]
  · intro store store2 ow aty w1 p1 c1 pr1 n1 w2 p2 c2 pr2 n2 h
    unfold create_asset at h
    cases hl : store.lookup (ow, aty) with
    | some a => rw [hl] at h; simp at h
    | none =>
      rw [hl] at h
      simp at h
      rw [← h]
      simp [create_asset, List.lookup]

/-- Concrete instance of C4: owner `1` already holds a Gold asset, so a
second Gold creation by owner `1` is rejected, both directly and after a
fresh successful creation. -/
theorem create_asset_duplicate_witness :
    create_asset [((1, AssetType.Gold), asset1)] 1 .Gold 500 90 "C2" 100 3
      = .error .DuplicateAsset ∧
    create_asset [((1, AssetType.Gold), asset1)] 1 .Gold 2 3 "D" 4 5
      = .error .DuplicateAsset := by
  constructor
  · exact create_asset_duplicate.1 [((1, AssetType.Gold), asset1)] 1 .Gold
      500 90 "C2" 100 3 asset1 (by decide)
  · exact create_asset_duplicate.2 [] [((1, AssetType.Gold), asset1)] 1 .Gold
      1000 99 "C1" 5000 0 2 3 "D" 4 5 rfl

/-- Claim C5: on a successful run the settlement transfer amount is
exactly the order's quantity, and the error outcome and transfer calls of
`execute_trade` are unchanged under any modification of the order's
`price_per_unit`, which is never used in settlement computation. -/
theorem settlement_amount_decoupled_from_price (ctx : ExecuteTrade)
    (p : Nat) :
    ((execute_trade ctx).err = none →
      (execute_trade ctx).transfers =
        [{ amount := ctx.order.quantity, authority := ctx.owner }]) ∧
    (execute_trade
        { ctx with order := { ctx.order with price_per_unit := p } }).transfers
      = (execute_trade ctx).transfers ∧
    (execute_trade
        { ctx with order := { ctx.order with price_per_unit := p } }).err
      = (execute_trade ctx).err := by
  refine ⟨?_, ?_, ?_⟩
  · intro hok
    obtain ⟨ha, hq, hle⟩ := exec_err_none ctx hok
    rw [exec_success ctx ha hq hle]
  · exact exec_transfers_congr ctx _ rfl rfl rfl rfl
  · exact exec_err_congr ctx _ rfl rfl rfl

/-- Concrete instance of C5: the sample trade moves 10 settlement tokens
(its quantity), not 10 * 5000 (quantity times unit price), and changing
the unit price to 777 changes neither the transfers nor the outcome. -/
theorem settlement_amount_decoupled_from_price_witness :
    (execute_trade ctx1).transfers =
      [{ amount := ctx1.order.quantity, authority := ctx1.owner }] ∧
    (execute_trade
        { ctx1 with order := { ctx1.order with price_per_unit := 777 } }).transfers
      = (execute_trade ctx1).transfers ∧
    ctx1.order.quantity ≠ ctx1.order.quantity * ctx1.order.price_per_unit := by
  refine ⟨?_, ?_, by decide⟩
  · exact (settlement_amount_decoupled_from_price ctx1 777).1 (by decide)
  · exact (settlement_amount_decoupled_from_price ctx1 777).2.1

/-- Claim C6: `execute_trade` never checks that the asset account passed
to it is the one referenced by `order.asset`: with the address of the
presented asset account differing from `order.asset`, an otherwise valid
call still succeeds and hands that unrelated asset to the buyer, and the
whole outcome is independent of the asset account's address. -/
theorem execute_trade_ignores_asset_ref (ctx : ExecuteTrade) (k : Pubkey)
    (_hne : ctx.asset_key ≠ ctx.order.asset)
    (hact : ctx.order.is_active = true) (hq : 0 < ctx.order.quantity)
    (hle : ctx.order.quantity ≤ ctx.from_token_account.amount) :
    (execute_trade ctx).err = none ∧
    (execute_trade ctx).asset.owner = ctx.buyer ∧
    execute_trade { ctx with asset_key := k } = execute_trade ctx := by
  refine ⟨?_, ?_, rfl⟩
  · rw [exec_success ctx hact hq hle]
  · rw [exec_success ctx hact hq hle]

/-- Concrete instance of C6: the sample order references the asset account
at address 100, yet presenting an asset account at address 55 succeeds and
transfers it to the buyer. -/
theorem execute_trade_ignores_asset_ref_witness :
    (execute_trade { ctx1 with asset_key := 55 }).err = none ∧
    (execute_trade { ctx1 with asset_key := 55 }).asset.owner
      = ({ ctx1 with asset_key := 55 } : ExecuteTrade).buyer ∧
    execute_trade { ctx1 with asset_key := 9 }
      = execute_trade { ctx1 with asset_key := 55 } :=
  execute_trade_ignores_asset_ref { ctx1 with asset_key := 55 } 9
    (by decide) (by decide) (by decide) (by decide)

/-- Claim C7: `execute_trade` never compares the presented signers against
`order.owner`: its error outcome is unchanged under any replacement of the
two signer identities, and on any active positive-quantity order the
precondition checks pass (no program-typed error is raised), whoever the
signers are. -/
theorem execute_trade_ignores_signer_identity (ctx : ExecuteTrade)
    (o2 b2 : Pubkey) :
    ((execute_trade { ctx with owner := o2, buyer := b2 }).err
      = (execute_trade ctx).err) ∧
    (ctx.order.is_active = true → 0 < ctx.order.quantity →
      ∀ e : ErrorCode, (execute_trade ctx).err ≠ some (.program e)) := by
  constructor
  · exact exec_err_congr ctx _ rfl rfl rfl
  · intro ha hq e
    by_cases hle : ctx.order.quantity ≤ ctx.from_token_account.amount
    · rw [exec_success ctx ha hq hle]; simp
    · rw [exec_insufficient ctx ha hq hle]; simp

/-- Concrete instance of C7: replacing the sample trade's signers by `9`
and `8` — neither of whom is the order's creator `1` — leaves the outcome
unchanged, and no program-typed error is raised on the open sample order. -/
theorem execute_trade_ignores_signer_identity_witness :
    (execute_trade { ctx1 with owner := 9, buyer := 8 }).err
      = (execute_trade ctx1).err ∧
    (execute_trade ctx1).err ≠ some (.program .Unauthorized) := by
  refine ⟨?_, ?_⟩
  · exact (execute_trade_ignores_signer_identity ctx1 9 8).1
  · exact (execute_trade_ignores_signer_identity ctx1 9 8).2
      (by decide) (by decide) .Unauthorized

/-- Claim C8: across every sequence of `execute_trade` invocations
threaded through one order, at most one invocation succeeds; in one step
the `is_active` flag drops from true to false exactly when the step
succeeds and never rises from false to true; and one store-level
invocation writes back exactly one TradeOrder record and one Asset record,
leaving every other key of both stores untouched. -/
theorem order_lifecycle_and_single_record_mutation :
    (∀ (o : TradeOrder) (cs : List ExecuteTrade),
      (run_orders o cs).countP (fun p => p.2.isNone) ≤ 1) ∧
    (∀ ctx : ExecuteTrade,
      (((execute_trade ctx).order.is_active = false ∧
          ctx.order.is_active = true) ↔ (execute_trade ctx).err = none) ∧
      ((execute_trade ctx).order.is_active = true →
        ctx.order.is_active = true)) ∧
    (∀ (orders : List (Pubkey × TradeOrder)) (assets : List (Pubkey × Asset))
        (order_key asset_key : Pubkey) (fta tta : TokenAccount)
        (owner_key buyer_key : Pubkey) (orders2 : List (Pubkey × TradeOrder))
        (assets2 : List (Pubkey × Asset)) (e : Option TradeError),
      execute_trade_keyed orders assets order_key asset_key fta tta
          owner_key buyer_key = some (orders2, assets2, e) →
      (∀ k, k ≠ order_key → orders2.lookup k = orders.lookup k) ∧
      (∀ k, k ≠ asset_key → assets2.lookup k = assets.lookup k)) := by
  refine ⟨fun o cs => run_orders_count_le_one cs o,
    fun ctx => ⟨exec_flip_iff ctx, exec_post_active ctx⟩, ?_⟩
  intro orders assets order_key asset_key fta tta owner_key buyer_key
    orders2 assets2 e h
  unfold execute_trade_keyed at h
  cases hlo : orders.lookup order_key with
  | none => rw [hlo] at h; simp at h
  | some o =>
    cases hla : assets.lookup asset_key with
    | none => rw [hlo, hla] at h; simp at h
    | some a =>
      rw [hlo, hla] at h
      simp only [Option.some.injEq, Prod.mk.injEq] at h
      obtain ⟨h1, h2, -⟩ := h
      refine ⟨fun k hk => ?_, fun k hk => ?_⟩
      · rw [← h1]; exact lookup_set_entry_ne orders k order_key _ hk
      · rw [← h2]; exact lookup_set_entry_ne assets k asset_key _ hk

/-- Concrete instance of C8: running the sample trade twice in a row
succeeds at most once, the sample step's flag drop coincides with its
success, and a store-level run at keys 7 and 100 leaves the records at
keys 8 and 101 untouched. -/
theorem order_lifecycle_and_single_record_mutation_witness :
    (run_orders order1 [ctx1, ctx1]).countP (fun p => p.2.isNone) ≤ 1 ∧
    (((execute_trade ctx1).order.is_active = false ∧
        ctx1.order.is_active = true) ↔ (execute_trade ctx1).err = none) ∧
    (set_entry 7 (execute_trade ctx1).order
        [(7, order1), (8, order1)]).lookup 8 = some order1 ∧
    (set_entry 100 (execute_trade ctx1).asset
        [(100, asset1), (101, asset1)]).lookup 101 = some asset1 := by
  have h := order_lifecycle_and_single_record_mutation.2.2
    [(7, order1), (8, order1)] [(100, asset1), (101, asset1)] 7 100
    { amount := 50 } { amount := 0 } 1 2
    (set_entry 7 (execute_trade ctx1).order [(7, order1), (8, order1)])
    (set_entry 100 (execute_trade ctx1).asset [(100, asset1), (101, asset1)])
    (execute_trade ctx1).err rfl
  refine ⟨order_lifecycle_and_single_record_mutation.1 order1 [ctx1, ctx1],
    (order_lifecycle_and_single_record_mutation.2.1 ctx1).1,
    (h.1 8 (by decide)).trans (by decide),
    (h.2 101 (by decide)).trans (by decide)⟩

/-- Claim C9: `update_price` fails with `Unauthorized` exactly when the
caller is not the asset's owner, leaving the record unchanged; called by
the owner it succeeds, setting `current_price` to the new price and
`last_price_update` to now, with no constraint on the new price. -/
theorem update_price_owner_only (asset : Asset) (caller : Pubkey)
    (new_price : Nat) (now : Int) :
    ((update_price asset caller new_price now).err = some .Unauthorized ↔
      caller ≠ asset.owner) ∧
    (caller ≠ asset.owner →
      (update_price asset caller new_price now).asset = asset) ∧
    (caller = asset.owner →
      update_price asset caller new_price now =
        { err := none
          asset :=
            { asset with current_price := new_price, last_price_update := now } }) := by
  by_cases h : asset.owner = caller
  · refine ⟨?_, ?_, fun _ => ?_⟩
    · simp [update_price, h]
    · intro hne
      exact absurd h.symm hne
    · simp [update_price, h]
  · refine ⟨?_, fun _ => ?_, fun he => ?_⟩
    · simp [update_price, h]
      exact fun he => absurd he.symm h
    · simp [update_price, h]
    · exact absurd he.symm h

/-- Concrete instance of C9: caller `3` cannot reprice the sample asset
owned by `1` and leaves it unchanged, while owner `1` can set any price. -/
theorem update_price_owner_only_witness :
    (update_price asset1 3 9 5).err = some .Unauthorized ∧
    (update_price asset1 3 9 5).asset = asset1 ∧
    update_price asset1 1 9 5 =
      { err := none
        asset := { asset1 with current_price := 9, last_price_update := 5 } } := by
  refine ⟨?_, ?_, ?_⟩
  · exact (update_price_owner_only asset1 3 9 5).1.mpr (by decide)
  · exact (update_price_owner_only asset1 3 9 5).2.1 (by decide)
  · exact (update_price_owner_only asset1 1 9 5).2.2 (by decide)

/-- Claim C10: for all creation inputs — with no validation of weight,
purity or certification — `initialize_asset` yields the record whose
fields equal the inputs, with `is_active` true, `created_at` the current
time, and `last_price_update` at its zero default. -/
theorem initialize_asset_fields (owner_key : Pubkey)
    (asset_type : AssetType) (weight purity : Nat) (certification : String)
    (initial_price : Nat) (now : Int) :
    initialize_asset owner_key asset_type weight purity certification
        initial_price now =
      { owner := owner_key
        asset_type := asset_type
        weight := weight
        purity := purity
        certification := certification
        current_price := initial_price
        created_at := now
        last_price_update := 0
        is_active := true } := rfl

end VWA
